import Mathlib

/-!
Verification of the greentree e-commerce backend (Django REST) business
logic: categories, products, orders and order items, their validation
rules, the order-number generator, and the custom view handlers.

Modelling conventions:
* Money (Django DecimalField with 2 decimal places) is modelled as `Int`
  cents; Decimal arithmetic `quantity * unit_price` is exact, so integer
  cents preserve all equalities and comparisons appearing in the code.
* Python falsiness of a string is emptiness; of an optional integer it is
  absence or zero.
* Database state is explicit: a list of persisted rows threaded through
  each handler. `Order.objects.order_by(-created_at).first()` is the head
  of the order list, which is kept most-recently-created first.
* Django `full_clean` is modelled as a boolean validity check run inside
  `save`; a save whose validation fails returns `none` (the raised
  `ValidationError`).
-/

namespace Greentree

/-! ## Digit strings: Python int() parsing and %06d formatting -/

/-- The decimal digit character for a value below 10 (mirrors what Python
produces when formatting a nonnegative integer). -/
def digitChar (n : Nat) : Char :=
  if n = 0 then '0' else if n = 1 then '1' else if n = 2 then '2'
  else if n = 3 then '3' else if n = 4 then '4' else if n = 5 then '5'
  else if n = 6 then '6' else if n = 7 then '7' else if n = 8 then '8'
  else '9'

/-- Numeric value of a digit character. -/
def digitVal (c : Char) : Nat := c.toNat - 48

/-- Value of a digit string read left to right (what Python int() computes
on an all-digit string, leading zeros allowed). -/
def digitsToNat (l : List Char) : Nat :=
  l.foldl (fun n c => n * 10 + digitVal c) 0

/-- Decimal digits of n, most significant first; structural recursion on a
fuel argument so the definition reduces in the kernel. -/
def natToDigitsAux : Nat → Nat → List Char
  | 0, _ => []
  | fuel + 1, n =>
    if n < 10 then [digitChar n]
    else natToDigitsAux fuel (n / 10) ++ [digitChar (n % 10)]

/-- Decimal digit string of n (mirrors Python %d formatting of a
nonnegative integer). -/
def natToDigits (n : Nat) : List Char := natToDigitsAux (n + 1) n

/-- Python f-string %06d padding: the decimal digits of n, left-padded
with zeros to at least 6 characters (models.py:180). -/
def padDigits6 (n : Nat) : List Char :=
  List.replicate (6 - (natToDigits n).length) '0' ++ natToDigits n

/-- The generated order number string ORD-%06d (models.py:180). -/
def ordString (n : Nat) : String :=
  String.mk ('O' :: 'R' :: 'D' :: '-' :: padDigits6 n)

/-- Python str.split of a character list at every dash. -/
def splitDash : List Char → List (List Char)
  | [] => [[]]
  | c :: cs =>
    match splitDash cs with
    | [] => [[]]
    | r :: rs => if c = '-' then [] :: r :: rs else (c :: r) :: rs

/-- Python int() restricted to unsigned digit strings (the only shape the
order-number suffix can take); none models the ValueError raised on any
other input. Whitespace stripping and sign handling of Python int() never
arise on these inputs and are omitted. -/
def pyIntNat (s : List Char) : Option Nat :=
  if s ≠ [] ∧ s.all Char.isDigit then some (digitsToNat s) else none

/-- The suffix computation int(order_number.split('-')[1]) from
models.py:176; none models the IndexError (fewer than two dash-separated
parts) or the ValueError (non-digit suffix). -/
def parseOrderSuffix (s : String) : Option Nat :=
  match splitDash s.data with
  | _ :: suffix :: _ => pyIntNat suffix
  | _ => none

/-- Python int() on an arbitrary request string: optional sign followed by
at least one digit (leading-zero tolerant); none models the ValueError.
Whitespace stripping and underscore separators of Python int() are not
modelled. Used by the stock-update handler (views.py:118). -/
def pyIntParse (s : String) : Option Int :=
  match s.data with
  | '-' :: rest =>
    if rest ≠ [] ∧ rest.all Char.isDigit then some (-(digitsToNat rest : Int)) else none
  | l =>
    if l ≠ [] ∧ l.all Char.isDigit then some ((digitsToNat l : Int)) else none

/-! ## Data model (src/core/models.py)

The uuid4 primary keys are opaque random strings generated outside the
business logic; they are modelled as plain string fields whose fresh
values, when needed, are supplied by the caller. Timestamps
(created_at/updated_at) carry no business logic beyond the creation order
of rows, which is modelled positionally: the orders list is kept
most-recently-created first. -/

/-- Category row (models.py:6-32). -/
structure Category where
  id : String
  name : String
  description : String
deriving DecidableEq

/-- Product row (models.py:35-96); category holds the Category id (FK),
price is in cents. -/
structure Product where
  id : String
  category : String
  name : String
  description : String
  price : Int
  stock_quantity : Int
  status : String
  tags : String
deriving DecidableEq

/-- The keys of Product.STATUS_CHOICES (models.py:39-43). -/
def productStatusKeys : List String := ["active", "inactive", "discontinued"]

/-- The keys of Order.STATUS_CHOICES (models.py:103-109). -/
def orderStatusKeys : List String :=
  ["pending", "processing", "shipped", "delivered", "cancelled"]

/-- The keys of Order.PAYMENT_STATUS_CHOICES (models.py:111-116). -/
def paymentStatusKeys : List String := ["pending", "paid", "failed", "refunded"]

/-- Order row (models.py:99-183); total_amount is in cents. -/
structure Order where
  id : String
  order_number : String
  customer_name : String
  customer_email : String
  customer_phone : String
  total_amount : Int
  status : String
  payment_status : String
  shipping_address : String
  notes : String
deriving DecidableEq

/-- OrderItem row (models.py:186-217); order and product hold the linked
row ids, unit_price and subtotal are in cents. subtotal is none while the
attribute has not been assigned (the field has no default). -/
structure OrderItem where
  id : String
  order : String
  product : String
  quantity : Int
  unit_price : Int
  subtotal : Option Int
deriving DecidableEq

/-- Derived availability, models.py:94-96. -/
def Product.is_available (p : Product) : Bool :=
  p.status == "active" && decide (p.stock_quantity > 0)

/-- Category.clean (models.py:23-28) as a predicate: true when no
ValidationError is raised. -/
def Category.cleanOk (c : Category) : Bool :=
  !(c.name = "") && !(c.name.length > 100)

/-- Product.clean (models.py:81-88) as a predicate. -/
def Product.cleanOk (p : Product) : Bool :=
  !(p.name = "") && !(p.price < 0) && !(p.stock_quantity < 0)

/-- Django full_clean on a Product: Product.clean plus the declared field
validation (name/description required, name max_length 200, price and
stock MinValueValidator(0), status choices). The FK existence and
decimal max_digits checks carry no claim logic and are not modelled. -/
def Product.fullCleanOk (p : Product) : Bool :=
  Product.cleanOk p && !(p.name.length > 200) && !(p.description = "")
    && productStatusKeys.contains p.status && !(p.tags.length > 255)

/-- Product.save (models.py:90-92): full_clean then persist; none models
the raised ValidationError. -/
def Product.save (p : Product) : Option Product :=
  if Product.fullCleanOk p then some p else none

/-- Order.clean (models.py:162-169) as a predicate. -/
def Order.cleanOk (o : Order) : Bool :=
  !(o.customer_name = "") && !(o.customer_email = "") && !(o.total_amount < 0)

/-- Django full_clean on an Order: Order.clean plus declared field
validation (order_number max_length 20, customer_name max_length 100,
customer_phone max_length 20, shipping_address required, status and
payment_status choices, total MinValueValidator(0)). The EmailField
format check is abstracted to nonemptiness, which is the part Order.clean
itself enforces. -/
def Order.fullCleanOk (o : Order) : Bool :=
  Order.cleanOk o && !(o.order_number.length > 20)
    && !(o.customer_name.length > 100) && !(o.customer_phone.length > 20)
    && !(o.shipping_address = "")
    && orderStatusKeys.contains o.status
    && paymentStatusKeys.contains o.payment_status

/-- Order.save (models.py:171-183). prior is the list of already
persisted orders, most recently created first, so prior.head? is
Order.objects.order_by(-created_at).first(). When no order number is set
it is generated from the most recent order; then full_clean runs; none
models a raised exception (the ValueError of int() on an unparseable
suffix, the IndexError of a suffix-less number, or the ValidationError of
full_clean). -/
def Order.save (prior : List Order) (o : Order) : Option Order :=
  let numbered : Option Order :=
    if o.order_number = "" then
      match prior.head? with
      | some last =>
        if last.order_number ≠ "" then
          match parseOrderSuffix last.order_number with
          | some m => some { o with order_number := ordString (m + 1) }
          | none => none
        else some { o with order_number := ordString 1001 }
      | none => some { o with order_number := ordString 1001 }
    else some o
  numbered.bind (fun o2 => if Order.fullCleanOk o2 then some o2 else none)

/-- OrderItem.clean (models.py:203-210) as a predicate; the subtotal
comparison subtotal != quantity * unit_price is also true (raises) when
subtotal is the unassigned none. -/
def OrderItem.cleanOk (it : OrderItem) : Bool :=
  !(it.quantity < 1) && !(it.unit_price < 0)
    && it.subtotal == some (it.quantity * it.unit_price)

/-- OrderItem.save (models.py:212-217): a falsy subtotal (unassigned, or
the Decimal 0) is auto-calculated as quantity * unit_price, then
full_clean runs (whose field checks add nothing beyond OrderItem.clean
here; row-uniqueness checks are not modelled). -/
def OrderItem.save (it : OrderItem) : Option OrderItem :=
  let it' := if it.subtotal = none ∨ it.subtotal = some 0 then
    { it with subtotal := some (it.quantity * it.unit_price) } else it
  if OrderItem.cleanOk it' then some it' else none

/-! ## Serializers (src/core/serializers.py) -/

/-- CategorySerializer.validate_name (serializers.py:11-15): true when the
value is accepted. -/
def CategorySerializer.validate_name (value : String) : Bool :=
  !(value.length < 2)

/-- ProductSerializer.validate_price (serializers.py:31-34): true when the
value is accepted. -/
def ProductSerializer.validate_price (value : Int) : Bool :=
  !(value ≤ 0)

/-- ProductSerializer.validate_stock_quantity (serializers.py:36-39). -/
def ProductSerializer.validate_stock_quantity (value : Int) : Bool :=
  !(value < 0)

/-- OrderSerializer.validate_total_amount (serializers.py:86-89). -/
def OrderSerializer.validate_total_amount (value : Int) : Bool :=
  !(value ≤ 0)

/-- The persistent store the view layer operates on; orders are kept most
recently created first. -/
structure Db where
  categories : List Category
  products : List Product
  orders : List Order
  order_items : List OrderItem
deriving DecidableEq

/-- Product.objects.get(pk=pid). -/
def Db.findProduct (db : Db) (pid : String) : Option Product :=
  db.products.find? (fun p => p.id = pid)

/-- One line item of an order-create or order-update request body; each
field is none when the key is absent from the JSON payload. -/
structure ItemPayload where
  product : Option String
  quantity : Option Int
  unit_price : Option Int
deriving DecidableEq

/-- An order-create request body. order_items distinguishes an absent key
from a present empty list. -/
structure OrderPayload where
  customer_name : String
  customer_email : String
  customer_phone : String
  order_items : Option (List ItemPayload)
  total_amount : Option Int
  status : Option String
  payment_status : Option String
  shipping_address : String
  notes : String
deriving DecidableEq

/-- Validation of one nested OrderItemSerializer (serializers.py:48-69)
run by is_valid: product is a required PrimaryKeyRelatedField (must name
an existing product), quantity is required with the model's
MinValueValidator(1) mapped onto the serializer field, unit_price is
required, and the object-level validate requires unit_price to equal the
referenced product's price. -/
def orderItemPayloadValid (db : Db) (it : ItemPayload) : Bool :=
  match it.product, it.quantity, it.unit_price with
  | some pid, some q, some up =>
    match Db.findProduct db pid with
    | some p => !(q < 1) && up == p.price
    | none => false
  | _, _, _ => false

/-- OrderSerializer.is_valid (serializers.py:72-89) over a request body:
required nonempty customer_name (max 100) and customer_email (EmailField
format abstracted to nonemptiness), customer_phone max 20, the nested
item validation when order_items is present (required=False, an empty
list is accepted), required total_amount accepted by
validate_total_amount, choice validation of status and payment_status
when present, required nonempty shipping_address. -/
def orderPayloadValid (db : Db) (req : OrderPayload) : Bool :=
  !(req.customer_name = "") && !(req.customer_name.length > 100)
    && !(req.customer_email = "") && !(req.customer_phone.length > 20)
    && (match req.order_items with
        | some items => items.all (orderItemPayloadValid db)
        | none => true)
    && (match req.total_amount with
        | some t => OrderSerializer.validate_total_amount t
        | none => false)
    && (match req.status with
        | some s => orderStatusKeys.contains s
        | none => true)
    && (match req.payment_status with
        | some s => paymentStatusKeys.contains s
        | none => true)
    && !(req.shipping_address = "")

/-- The Order instance built by Order.objects.create(**validated_data)
inside OrderSerializer.create (serializers.py:93), before Order.save
runs: no order number yet, model defaults for absent status and
payment_status, the uuid4 id left opaque. The getD 0 fallback for
total_amount is unreachable behind validation, which requires the
field. -/
def orderFromPayload (req : OrderPayload) : Order :=
  { id := "", order_number := "",
    customer_name := req.customer_name,
    customer_email := req.customer_email,
    customer_phone := req.customer_phone,
    total_amount := req.total_amount.getD 0,
    status := req.status.getD "pending",
    payment_status := req.payment_status.getD "pending",
    shipping_address := req.shipping_address,
    notes := req.notes }

/-- The OrderItem instances built by OrderItem.objects.create(order=...,
**item_data) in OrderSerializer.create (serializers.py:96-97): the
subtotal was already assigned as quantity * unit_price by
OrderItemSerializer.validate (serializers.py:66-67). The getD fallbacks
are unreachable behind validation, which requires all three keys. -/
def itemsFromPayload (orderId : String) (items : List ItemPayload) : List OrderItem :=
  items.map (fun it =>
    { id := "", order := orderId,
      product := it.product.getD "",
      quantity := it.quantity.getD 0,
      unit_price := it.unit_price.getD 0,
      subtotal := some (it.quantity.getD 0 * it.unit_price.getD 0) })

/-- Sequential persistence of the built order items, each through
OrderItem.save; returns the rows persisted before a failure, and whether
all succeeded. There is no transaction around OrderSerializer.create, so
rows persisted before a failing one stay persisted. -/
def persistItems : List OrderItem → List OrderItem × Bool
  | [] => ([], true)
  | it :: rest =>
    match OrderItem.save it with
    | none => ([], false)
    | some it' =>
      let r := persistItems rest
      (it' :: r.1, r.2)

/-! ## View handlers (src/core/views.py) -/

/-- The HTTP statuses the modelled handlers produce; serverError stands
for an exception that escapes the handler (Django turns it into a 500). -/
inductive HttpResponse where
  | ok
  | created
  | noContent
  | badRequest
  | serverError
deriving DecidableEq

/-- Python falsiness of an optional string value (absent or empty). -/
def pyFalsyStr : Option String → Bool
  | none => true
  | some s => s = ""

/-- Python falsiness of an optional integer value (absent or zero). -/
def pyFalsyInt : Option Int → Bool
  | none => true
  | some q => q = 0

/-- CategoryViewSet.destroy (views.py:40-52) on an existing category:
400 when any product references it, otherwise the row is deleted. The
404 path for a missing pk is handled by get_object before this logic. -/
def CategoryViewSet.destroy (db : Db) (catId : String) : HttpResponse × Db :=
  if db.products.any (fun p => p.category = catId) then
    (HttpResponse.badRequest, db)
  else
    (HttpResponse.noContent,
      { db with categories := db.categories.filter (fun c => !(c.id = catId)) })

/-- ProductViewSet.update_stock (views.py:105-134) on the fetched
product: 400 when the quantity key is absent; otherwise int() is
attempted, a ValueError giving 400; on success the in-memory quantity is
replaced and full_clean plus save run, any exception (notably the
ValidationError for a negative quantity) being caught into a 400 that
leaves the persisted row unchanged. Returns the response and the
persisted product row. -/
def ProductViewSet.update_stock (p : Product) (quantity : Option String) :
    HttpResponse × Product :=
  match quantity with
  | none => (HttpResponse.badRequest, p)
  | some qs =>
    match pyIntParse qs with
    | none => (HttpResponse.badRequest, p)
    | some q =>
      match Product.save { p with stock_quantity := q } with
      | some p' => (HttpResponse.ok, p')
      | none => (HttpResponse.badRequest, p)

/-- The model names views.py binds at import (views.py:9,
from .models import Category, Product, Order): OrderItem is absent. -/
def viewsImportedModelNames : List String := ["Category", "Product", "Order"]

/-- OrderViewSet.get_queryset (views.py:156-160): builds the prefetched
queryset over the persisted orders, but its Prefetch argument at
views.py:159 evaluates the name OrderItem, which views.py never imports,
so the lookup raises NameError; none models that escaped exception. -/
def OrderViewSet.get_queryset (db : Db) : Option (List Order) :=
  if viewsImportedModelNames.contains "OrderItem" then some db.orders else none

/-- OrderViewSet.update_status (views.py:193-217): self.get_object() at
views.py:196 filters self.get_queryset(), so the NameError raised inside
get_queryset escapes the handler (HTTP 500) before the status value is
read. o is the persisted row the pk names (what get_object would return
were the queryset construction not broken); the remaining logic - 400
when the status value is falsy (absent or empty) or not one of the
defined status keys, otherwise replace the status and run Order.save
(whose ValidationError this handler does not catch) - is kept faithfully
but is unreachable. Returns the response and the persisted order row. -/
def OrderViewSet.update_status (db : Db) (o : Order)
    (newStatus : Option String) : HttpResponse × Order :=
  match OrderViewSet.get_queryset db with
  | none => (HttpResponse.serverError, o)
  | some _ =>
    if pyFalsyStr newStatus then (HttpResponse.badRequest, o)
    else
      let s := newStatus.getD ""
      if !(orderStatusKeys.contains s) then (HttpResponse.badRequest, o)
      else
        match Order.save db.orders { o with status := s } with
        | some saved => (HttpResponse.ok, saved)
        | none => (HttpResponse.serverError, o)

/-- OrderViewSet.create (views.py:162-191): serializer.is_valid with
raise_exception (400 on failure, nothing persisted); then the raw
request's order_items list, defaulted to empty, must be nonempty (400);
then each raw item must have truthy product and quantity (400). The
local total_amount initialised at views.py:176 is never accumulated nor
used afterwards, so it is not part of the model. Then serializer.save
persists the order (generating its number) and its items; an exception
there escapes the handler. -/
def OrderViewSet.create (db : Db) (req : OrderPayload) : HttpResponse × Db :=
  if !(orderPayloadValid db req) then (HttpResponse.badRequest, db)
  else
    let itemsData := req.order_items.getD []
    if itemsData.isEmpty then (HttpResponse.badRequest, db)
    else if itemsData.any (fun it => pyFalsyStr it.product || pyFalsyInt it.quantity) then
      (HttpResponse.badRequest, db)
    else
      match Order.save db.orders (orderFromPayload req) with
      | none => (HttpResponse.serverError, db)
      | some saved =>
        let r := persistItems (itemsFromPayload saved.id itemsData)
        let db' :=
          { db with orders := (saved :: db.orders),
                    order_items := db.order_items ++ r.1 }
        if r.2 then (HttpResponse.created, db') else (HttpResponse.serverError, db')

/-- The order total the specification defines: the sum over the order
items of quantity * unit_price (each item's subtotal). -/
def itemsSubtotalSum (items : List OrderItem) : Int :=
  (items.map (fun it => it.quantity * it.unit_price)).sum

/-- Serializer validation for a category payload (serializers.py:5-15):
name required nonempty with max_length 100, the UniqueValidator that DRF
attaches for the model's unique=True name (excluding the updated row
itself on update), and validate_name. The description field carries no
validation (blank=True). -/
def categoryPayloadValid (db : Db) (excludeId : Option String) (nm : String) : Bool :=
  !(nm = "") && !(nm.length > 100)
    && !(db.categories.any (fun c => c.name == nm && some c.id != excludeId))
    && CategorySerializer.validate_name nm

/-- CategoryViewSet create (the ModelViewSet default, driven by
CategorySerializer): 400 when serializer validation fails, otherwise the
row is persisted. The fresh uuid4 id is supplied by the caller.
Category.save's full_clean accepts every name the serializer accepted
(nonempty and at most 100 characters), so no failure path remains. -/
def CategoryViewSet.create (db : Db) (freshId nm desc : String) : HttpResponse × Db :=
  if !(categoryPayloadValid db none nm) then (HttpResponse.badRequest, db)
  else
    (HttpResponse.created,
      { db with categories := db.categories ++ [⟨freshId, nm, desc⟩] })

/-- CategoryViewSet update (the ModelViewSet default) on an existing
category id: 400 when serializer validation fails, otherwise the row is
replaced. -/
def CategoryViewSet.update (db : Db) (catId nm desc : String) : HttpResponse × Db :=
  if !(categoryPayloadValid db (some catId) nm) then (HttpResponse.badRequest, db)
  else
    (HttpResponse.ok,
      { db with categories := db.categories.map (fun c =>
          if c.id = catId then { c with name := nm, description := desc } else c) })

/-- Sequential non-concurrent order creations: each order of the input
list is saved in turn against the orders persisted so far, newest first,
starting from an empty store; none as soon as one save raises. -/
def createOrders (inputs : List Order) : Option (List Order) :=
  inputs.foldl
    (fun acc o => acc.bind (fun db => (Order.save db o).map (fun s => s :: db)))
    (some [])

/-! ## Concrete rows and payloads used to evaluate the handlers -/

/-- A valid active product priced 10.00 with stock 10. -/
def widgetProduct : Product :=
  { id := "p1", category := "c1", name := "Widget", description := "A widget",
    price := 1000, stock_quantity := 10, status := "active", tags := "" }

/-- A valid product priced 0.00 (accepted by the model layer). -/
def freeProduct : Product :=
  { id := "p2", category := "c1", name := "Freebie", description := "Free sample",
    price := 0, stock_quantity := 5, status := "active", tags := "" }

/-- The category that owns the products above. -/
def electronicsCategory : Category :=
  { id := "c1", name := "Electronics", description := "Devices" }

/-- A category no product references. -/
def emptyCategory : Category :=
  { id := "c2", name := "Empty Shelf", description := "" }

/-- A store with one category, one product in it, and one empty category. -/
def storeDb : Db :=
  { categories := [electronicsCategory, emptyCategory],
    products := [widgetProduct], orders := [], order_items := [] }

/-- A valid persisted order. -/
def pendingOrder : Order :=
  { id := "o1", order_number := "ORD-001001", customer_name := "John Doe",
    customer_email := "john@example.com", customer_phone := "",
    total_amount := 10000, status := "pending", payment_status := "pending",
    shipping_address := "123 Test St", notes := "" }

/-- A not-yet-saved order with no order number (what Order.objects.create
builds before Order.save runs). -/
def blankOrder : Order :=
  { id := "", order_number := "", customer_name := "John Doe",
    customer_email := "john@example.com", customer_phone := "",
    total_amount := 10000, status := "pending", payment_status := "pending",
    shipping_address := "123 Test St", notes := "" }

/-- An order-create request with one line item of 2 x 10.00 and a
supplied total of 999.00. -/
def inflatedTotalReq : OrderPayload :=
  { customer_name := "John Doe", customer_email := "john@example.com",
    customer_phone := "",
    order_items := some [{ product := some "p1", quantity := some 2,
                           unit_price := some 1000 }],
    total_amount := some 99900, status := none, payment_status := none,
    shipping_address := "123 Test St", notes := "" }

/-- An order-create request with an empty order_items list. -/
def emptyItemsReq : OrderPayload :=
  { customer_name := "John Doe", customer_email := "john@example.com",
    customer_phone := "", order_items := some [],
    total_amount := some 5000, status := none, payment_status := none,
    shipping_address := "123 Test St", notes := "" }

/-- The store with one persisted order, as fetched by the order
endpoints. -/
def orderStoreDb : Db :=
  { categories := [electronicsCategory], products := [widgetProduct],
    orders := [pendingOrder], order_items := [] }

/-- An order item whose subtotal was explicitly set to 0 while
quantity * unit_price is 10.00. -/
def zeroSubtotalItem : OrderItem :=
  { id := "i1", order := "o1", product := "p1", quantity := 2,
    unit_price := 500, subtotal := some 0 }

/-- An order item whose subtotal was explicitly set to a nonzero value
different from quantity * unit_price. -/
def wrongSubtotalItem : OrderItem :=
  { id := "i2", order := "o1", product := "p1", quantity := 2,
    unit_price := 500, subtotal := some 700 }
/-- The order-number invariant of a sequentially populated store of n
orders, newest first: the i-th most recent order carries the numeric
suffix 1000 + n - i (so the oldest carries 1001 and suffixes strictly
increase in creation order). -/
def suffixInv (db : List Order) : Prop :=
  ∀ (i : Nat) (h : i < db.length),
    parseOrderSuffix (db.get ⟨i, h⟩).order_number = some (1000 + db.length - i)

/-! ### Roundtrip lemmas for the order-number format -/

theorem digitVal_digitChar {d : Nat} (hd : d < 10) : digitVal (digitChar d) = d := by
  interval_cases d <;> rfl

theorem isDigit_digitChar {d : Nat} (hd : d < 10) : (digitChar d).isDigit = true := by
  interval_cases d <;> rfl

theorem digitChar_ne_dash {d : Nat} (hd : d < 10) : digitChar d ≠ '-' := by
  interval_cases d <;> decide

theorem digitsToNat_append (l : List Char) (c : Char) :
    digitsToNat (l ++ [c]) = 10 * digitsToNat l + digitVal c := by
  unfold digitsToNat
  rw [List.foldl_append]
  simp [Nat.mul_comm]

theorem natToDigitsAux_spec {fuel n : Nat} (h : n < 10 ^ fuel) (hf : 0 < fuel) :
    digitsToNat (natToDigitsAux fuel n) = n ∧
    (natToDigitsAux fuel n).all Char.isDigit = true ∧
    natToDigitsAux fuel n ≠ [] := by
  induction fuel generalizing n with
  | zero => exact absurd hf (by simp)
  | succ fuel ih =>
    by_cases hn : n < 10
    · refine ⟨?_, ?_, ?_⟩ <;> simp [natToDigitsAux, hn, digitsToNat,
        digitVal_digitChar hn, isDigit_digitChar hn]
    · have hdiv : n / 10 < 10 ^ fuel := by
        rw [Nat.div_lt_iff_lt_mul (by norm_num)]
        calc n < 10 ^ (fuel + 1) := h
        _ = 10 ^ fuel * 10 := by ring
      have hfpos : 0 < fuel := by
        rcases Nat.eq_zero_or_pos fuel with hz | hp
        · subst hz
          simp only [pow_zero, Nat.lt_one_iff, Nat.div_eq_zero_iff] at hdiv
          omega
        · exact hp
      obtain ⟨h1, h2, h3⟩ := ih hdiv hfpos
      refine ⟨?_, ?_, ?_⟩
      · rw [natToDigitsAux]
        simp only [hn, if_false]
        rw [digitsToNat_append, h1, digitVal_digitChar (Nat.mod_lt n (by norm_num))]
        exact Nat.div_add_mod n 10
      · rw [natToDigitsAux]
        simp only [hn, if_false, List.all_append, h2, Bool.true_and, List.all_cons,
          List.all_nil, Bool.and_true]
        exact isDigit_digitChar (Nat.mod_lt n (by norm_num))
      · rw [natToDigitsAux]
        simp only [hn, if_false]
        exact fun hc => by simp at hc

theorem natToDigits_spec (n : Nat) :
    digitsToNat (natToDigits n) = n ∧
    (natToDigits n).all Char.isDigit = true ∧
    natToDigits n ≠ [] := by
  have h : n < 10 ^ (n + 1) :=
    lt_of_le_of_lt (Nat.le_succ n) (Nat.lt_pow_self (by norm_num) (n + 1))
  exact natToDigitsAux_spec h (Nat.succ_pos n)

theorem digitsToNat_replicate_zero_append (k : Nat) (l : List Char) :
    digitsToNat (List.replicate k '0' ++ l) = digitsToNat l := by
  induction k with
  | zero => simp
  | succ k ih =>
    have : List.replicate (k + 1) '0' ++ l = '0' :: (List.replicate k '0' ++ l) := by
      simp [List.replicate_succ]
    rw [this]
    unfold digitsToNat at ih ⊢
    simpa [digitVal] using ih

theorem padDigits6_spec (n : Nat) :
    digitsToNat (padDigits6 n) = n ∧
    (padDigits6 n).all Char.isDigit = true ∧
    padDigits6 n ≠ [] := by
  obtain ⟨h1, h2, h3⟩ := natToDigits_spec n
  refine ⟨?_, ?_, ?_⟩
  · rw [padDigits6, digitsToNat_replicate_zero_append, h1]
  · simp only [padDigits6, List.all_append, h2, Bool.and_true]
    simp [List.all_eq_true]
  · simp [padDigits6, h3]

theorem splitDash_ne_nil (l : List Char) : splitDash l ≠ [] := by
  cases l with
  | nil => simp [splitDash]
  | cons c cs =>
    rw [splitDash]
    rcases h : splitDash cs with _ | ⟨r, rs⟩
    · simp
    · by_cases hc : c = '-' <;> simp [hc]

theorem splitDash_no_dash {l : List Char} (h : ∀ c ∈ l, c ≠ '-') :
    splitDash l = [l] := by
  induction l with
  | nil => rfl
  | cons c cs ih =>
    rw [splitDash]
    rw [ih (fun x hx => h x (List.mem_cons_of_mem c hx))]
    simp [h c (List.mem_cons_self c cs)]

theorem splitDash_prefix_dash {l r : List Char} (h : ∀ c ∈ l, c ≠ '-') :
    splitDash (l ++ '-' :: r) = l :: splitDash r := by
  induction l with
  | nil =>
    simp only [List.nil_append]
    rw [splitDash]
    rcases hr : splitDash r with _ | ⟨r₀, rs⟩
    · exact absurd hr (splitDash_ne_nil r)
    · simp
  | cons c cs ih =>
    have hcs := ih (fun x hx => h x (List.mem_cons_of_mem c hx))
    simp only [List.cons_append]
    rw [splitDash, hcs]
    simp [h c (List.mem_cons_self c cs)]

/-- Roundtrip of the order-number format: the suffix computation of
models.py:176 recovers the number that models.py:180 formatted. -/
theorem parseOrderSuffix_ordString (n : Nat) :
    parseOrderSuffix (ordString n) = some n := by
  obtain ⟨h1, h2, h3⟩ := padDigits6_spec n
  have hnodash : ∀ c ∈ padDigits6 n, c ≠ '-' := by
    intro c hc
    have : c.isDigit = true := by
      rw [List.all_eq_true] at h2
      exact h2 c hc
    intro hdash
    rw [hdash] at this
    exact absurd this (by decide)
  have hsplit : splitDash ('O' :: 'R' :: 'D' :: '-' :: padDigits6 n)
      = ['O', 'R', 'D'] :: splitDash (padDigits6 n) := by
    have := splitDash_prefix_dash (l := ['O', 'R', 'D']) (r := padDigits6 n)
      (by intro c hc; fin_cases hc <;> decide)
    simpa using this
  rw [parseOrderSuffix, ordString]
  simp only [hsplit, splitDash_no_dash hnodash]
  rw [pyIntNat, if_pos ⟨h3, h2⟩, h1]

theorem ordString_ne_empty (n : Nat) : ordString n ≠ "" := by
  rw [ordString]
  intro h
  have : ('O' :: 'R' :: 'D' :: '-' :: padDigits6 n) = ([] : List Char) := by
    exact congrArg String.data h
  simp at this

/-! ## Claim theorems -/

/-- C3: for every product, the derived attribute is_available is true if
and only if the product's status equals active and its stock_quantity is
strictly greater than 0 (models.py:94-96). -/
theorem claim_C3_is_available_iff (p : Product) :
    p.is_available = true ↔ (p.status = "active" ∧ p.stock_quantity > 0) := by
  simp [Product.is_available, Bool.and_eq_true, beq_iff_eq, decide_eq_true_eq]

/-- C5: failing evaluation for the claim that a price of exactly 0 is
accepted by API field validation: ProductSerializer.validate_price
(serializers.py:32) rejects 0 because it tests value <= 0, although the
model layer the claim and spec describe (Product.clean at models.py:85
and MinValueValidator(0), run by Product.save) accepts a 0 price and the
serializer's own stock validator does accept 0 stock. -/
theorem claim_C5_price_zero_rejected_by_serializer :
    ProductSerializer.validate_price 0 = false
      ∧ freeProduct.price = 0
      ∧ Product.save freeProduct = some freeProduct
      ∧ ProductSerializer.validate_stock_quantity 0 = true := by decide

/-- C10: a category create or update whose name is shorter than 2
characters is rejected by CategorySerializer.validate_name
(serializers.py:11-15) with a validation error, leaving the store
unchanged. -/
theorem claim_C10_short_name_rejected (db : Db) (freshId catId nm desc : String)
    (h : nm.length < 2) :
    CategorySerializer.validate_name nm = false
      ∧ CategoryViewSet.create db freshId nm desc = (HttpResponse.badRequest, db)
      ∧ CategoryViewSet.update db catId nm desc = (HttpResponse.badRequest, db) := by
  have hv : CategorySerializer.validate_name nm = false := by
    simp [CategorySerializer.validate_name, h]
  refine ⟨hv, ?_, ?_⟩ <;>
    simp [CategoryViewSet.create, CategoryViewSet.update, categoryPayloadValid, hv]

theorem claim_C10_short_name_rejected_witness :
    CategoryViewSet.create storeDb "c9" "A" "gadgets"
      = (HttpResponse.badRequest, storeDb) :=
  (claim_C10_short_name_rejected storeDb "c9" "c1" "A" "gadgets" (by decide)).2.1

/-- C6: deleting a category fails with HTTP 400 and leaves the store
unchanged exactly when at least one product references it; with zero
referencing products the delete succeeds and removes the category
(views.py:40-52). -/
theorem claim_C6_category_delete (db : Db) (catId : String) :
    ((CategoryViewSet.destroy db catId).1 = HttpResponse.badRequest
        ↔ db.products.any (fun p => p.category = catId) = true)
      ∧ (db.products.any (fun p => p.category = catId) = true →
          CategoryViewSet.destroy db catId = (HttpResponse.badRequest, db))
      ∧ (db.products.any (fun p => p.category = catId) = false →
          (CategoryViewSet.destroy db catId).1 = HttpResponse.noContent
            ∧ ∀ c ∈ (CategoryViewSet.destroy db catId).2.categories, c.id ≠ catId) := by
  by_cases h : db.products.any (fun p => p.category = catId) = true
  · refine ⟨by simp [CategoryViewSet.destroy, h], fun _ => by simp [CategoryViewSet.destroy, h], fun hf => ?_⟩
    rw [h] at hf
    exact absurd hf (by simp)
  · rw [Bool.not_eq_true] at h
    refine ⟨by simp [CategoryViewSet.destroy, h], fun ht => absurd ht (by simp [h]), fun _ => ?_⟩
    refine ⟨by simp [CategoryViewSet.destroy, h], ?_⟩
    intro c hc
    simp only [CategoryViewSet.destroy, h, Bool.false_eq_true, if_false] at hc
    simp only [List.mem_filter, Bool.not_eq_true', decide_eq_false_iff_not] at hc
    exact hc.2

theorem claim_C6_category_delete_witness :
    CategoryViewSet.destroy storeDb "c1" = (HttpResponse.badRequest, storeDb)
      ∧ (CategoryViewSet.destroy storeDb "c2").1 = HttpResponse.noContent :=
  ⟨(claim_C6_category_delete storeDb "c1").2.1 (by decide),
   ((claim_C6_category_delete storeDb "c2").2.2 (by decide)).1⟩

/-- C4 counterexample: an order item whose subtotal was set to 0 while
quantity * unit_price is 1000 does not fail on save as the claim states;
OrderItem.save treats the falsy 0 as unset and silently recomputes it
(models.py:214), persisting the item. -/
theorem claim_C4_counterexample :
    zeroSubtotalItem.subtotal = some 0
      ∧ zeroSubtotalItem.quantity * zeroSubtotalItem.unit_price = 1000
      ∧ OrderItem.save zeroSubtotalItem
          = some { zeroSubtotalItem with subtotal := some 1000 } := by decide

/-- C4 (amended): saving an order item with a set nonzero subtotal
different from quantity * unit_price fails with a ValidationError (a
subtotal that is unset or zero is instead auto-recomputed as quantity *
unit_price), and every successfully persisted order item satisfies
subtotal = quantity * unit_price exactly (models.py:203-217). -/
theorem claim_C4_subtotal_invariant (it : OrderItem) :
    (∀ s : Int, it.subtotal = some s → s ≠ 0 →
        s ≠ it.quantity * it.unit_price → OrderItem.save it = none)
      ∧ (∀ it', OrderItem.save it = some it' →
          it'.subtotal = some (it'.quantity * it'.unit_price)) := by
  constructor
  · intro s hs hs0 hne
    have h1 : ¬ (it.subtotal = none ∨ it.subtotal = some 0) := by
      rw [hs]
      rintro (h | h)
      · exact Option.noConfusion h
      · exact hs0 (Option.some_injective _ h)
    have h2 : OrderItem.cleanOk it = false := by
      simp [OrderItem.cleanOk, hs, hne]
    simp [OrderItem.save, h1, h2]
  · intro it' h
    simp only [OrderItem.save] at h
    by_cases hc : it.subtotal = none ∨ it.subtotal = some 0
    · rw [if_pos hc] at h
      by_cases hclean :
          OrderItem.cleanOk { it with subtotal := some (it.quantity * it.unit_price) } = true
      · rw [if_pos hclean] at h
        obtain rfl := Option.some_injective _ h
        rfl
      · rw [if_neg (by simp [hclean])] at h
        exact absurd h (by simp)
    · rw [if_neg hc] at h
      by_cases hclean : OrderItem.cleanOk it = true
      · rw [if_pos hclean] at h
        obtain rfl := Option.some_injective _ h
        simp only [OrderItem.cleanOk, Bool.and_eq_true, beq_iff_eq] at hclean
        exact hclean.2
      · rw [if_neg (by simp [hclean])] at h
        exact absurd h (by simp)

theorem claim_C4_subtotal_invariant_witness :
    OrderItem.save wrongSubtotalItem = none :=
  (claim_C4_subtotal_invariant wrongSubtotalItem).1 700 rfl (by decide) (by decide)

/-- C7 counterexample: the quantity string -5 is parseable as an integer,
so the claim states the product is persisted with it; instead full_clean
rejects the negative stock, the except clause at views.py:130 turns it
into a 400, and the persisted stock is unchanged. -/
theorem claim_C7_counterexample :
    pyIntParse "-5" = some (-5)
      ∧ ProductViewSet.update_stock widgetProduct (some "-5")
          = (HttpResponse.badRequest, widgetProduct)
      ∧ widgetProduct.stock_quantity = 10 := by decide

/-- C7 (amended): a stock update whose quantity is missing or not
parseable as an integer returns 400 with the persisted stock unchanged;
a parseable quantity is re-validated and, when validation passes,
persisted; when re-validation fails (notably a negative quantity) the
handler returns 400 and the persisted stock is unchanged
(views.py:105-134). -/
theorem claim_C7_update_stock (p : Product) :
    (ProductViewSet.update_stock p none = (HttpResponse.badRequest, p))
      ∧ (∀ s, pyIntParse s = none →
          ProductViewSet.update_stock p (some s) = (HttpResponse.badRequest, p))
      ∧ (∀ s n, pyIntParse s = some n →
          Product.fullCleanOk { p with stock_quantity := n } = true →
          ProductViewSet.update_stock p (some s)
            = (HttpResponse.ok, { p with stock_quantity := n }))
      ∧ (∀ s n, pyIntParse s = some n →
          Product.fullCleanOk { p with stock_quantity := n } = false →
          ProductViewSet.update_stock p (some s) = (HttpResponse.badRequest, p)) := by
  refine ⟨rfl, ?_, ?_, ?_⟩
  · intro s hs
    simp [ProductViewSet.update_stock, hs]
  · intro s n hs hclean
    simp [ProductViewSet.update_stock, hs, Product.save, hclean]
  · intro s n hs hclean
    simp [ProductViewSet.update_stock, hs, Product.save, hclean]

theorem claim_C7_update_stock_witness :
    ProductViewSet.update_stock widgetProduct (some "abc")
        = (HttpResponse.badRequest, widgetProduct)
      ∧ ProductViewSet.update_stock widgetProduct (some "25")
          = (HttpResponse.ok, { widgetProduct with stock_quantity := 25 }) :=
  ⟨(claim_C7_update_stock widgetProduct).2.1 "abc" (by decide),
   (claim_C7_update_stock widgetProduct).2.2.1 "25" 25 (by decide) (by decide)⟩

/-- C1: failing evaluation for the claim that the persisted total always
equals the sum of the items' subtotals: the create handler persists the
request-supplied 999.00 although its single line item (2 x 10.00) sums to
20.00. The local total initialised at views.py:176 under the comment
Calculate total amount from order items is never accumulated by the loop
(views.py:177-185, which only checks the items) and never written to the
order, so OrderSerializer.create persists the request's total_amount. -/
theorem claim_C1_supplied_total_persisted :
    (OrderViewSet.create storeDb inflatedTotalReq).1 = HttpResponse.created
      ∧ ((OrderViewSet.create storeDb inflatedTotalReq).2.orders.head?.map
          Order.total_amount) = some 99900
      ∧ itemsSubtotalSum (OrderViewSet.create storeDb inflatedTotalReq).2.order_items
          = 2000
      ∧ (99900 : Int) ≠ 2000 := by decide

/-- C8: failing evaluation for the claimed 400/200 behavior of the
status-update handler: views.py imports only Category, Product and Order
(views.py:9), yet OrderViewSet.get_queryset references OrderItem at
views.py:159, so self.get_object() at views.py:196 raises NameError
before the status value is read and every status-update request - here
with the valid status shipped, the undefined status archived, and an
absent status, on a valid persisted order - escapes as a 500 with the
persisted order unchanged; the 400 and 200 branches the claim describes
are unreachable. -/
theorem claim_C8_status_update_always_500 :
    viewsImportedModelNames.contains "OrderItem" = false
      ∧ OrderViewSet.get_queryset orderStoreDb = none
      ∧ OrderViewSet.update_status orderStoreDb pendingOrder (some "shipped")
          = (HttpResponse.serverError, pendingOrder)
      ∧ OrderViewSet.update_status orderStoreDb pendingOrder (some "archived")
          = (HttpResponse.serverError, pendingOrder)
      ∧ OrderViewSet.update_status orderStoreDb pendingOrder none
          = (HttpResponse.serverError, pendingOrder) := by decide

/-- C9: an order-create request whose order_items list is empty or absent
gets a 400 with nothing persisted, and a request containing an item that
lacks a product reference or a positive quantity is rejected with a 400
with nothing persisted (views.py:162-191; the missing-product and
nonpositive-quantity cases are caught by serializer.is_valid with
raise_exception before the handler's own item loop runs). -/
theorem claim_C9_order_create_rejections (db : Db) (req : OrderPayload) :
    ((req.order_items = none ∨ req.order_items = some []) →
        OrderViewSet.create db req = (HttpResponse.badRequest, db))
      ∧ (∀ items it, req.order_items = some items → it ∈ items →
          (it.product = none ∨ it.quantity = none
            ∨ ∃ q, it.quantity = some q ∧ q < 1) →
          OrderViewSet.create db req = (HttpResponse.badRequest, db)) := by
  constructor
  · intro hempty
    by_cases hv : orderPayloadValid db req = true
    · rcases hempty with h | h <;> simp [OrderViewSet.create, hv, h]
    · simp [OrderViewSet.create, Bool.eq_false_iff.mpr hv]
  · intro items it hitems hmem hbad
    have hval : orderPayloadValid db req = false := by
      rw [Bool.eq_false_iff]
      intro hv
      simp only [orderPayloadValid, hitems, Bool.and_eq_true, List.all_eq_true] at hv
      have hit : orderItemPayloadValid db it = true := hv.1.1.1.1.2 it hmem
      rcases hbad with h | h | ⟨q, hq, hqlt⟩
      · simp [orderItemPayloadValid, h] at hit
      · simp [orderItemPayloadValid, h] at hit
      · rcases h3 : it.product with _ | pid
        · simp [orderItemPayloadValid, h3] at hit
        · rcases h4 : it.unit_price with _ | up
          · simp [orderItemPayloadValid, h3, hq, h4] at hit
          · rcases h5 : Db.findProduct db pid with _ | p
            · simp [orderItemPayloadValid, h3, hq, h4, h5] at hit
            · simp [orderItemPayloadValid, h3, hq, h4, h5] at hit
              omega
    simp [OrderViewSet.create, hval]

theorem claim_C9_order_create_rejections_witness :
    OrderViewSet.create storeDb emptyItemsReq = (HttpResponse.badRequest, storeDb) :=
  (claim_C9_order_create_rejections storeDb emptyItemsReq).1 (Or.inr rfl)

/-! ## C2: the order-number generator -/

theorem parseOrderSuffix_empty : parseOrderSuffix "" = none := rfl

theorem foldl_saveStep_none (l : List Order) :
    l.foldl
      (fun acc o => acc.bind (fun db => (Order.save db o).map (fun s => s :: db)))
      none = none := by
  induction l with
  | nil => rfl
  | cons o rest ih => simpa using ih

theorem Order.save_blank_nil {o o' : Order} (hnum : o.order_number = "")
    (h : Order.save [] o = some o') :
    o' = { o with order_number := ordString 1001 } := by
  rw [Order.save] at h
  simp only [hnum, List.head?_nil, if_true, eq_self_iff_true, Option.some_bind] at h
  split at h
  · exact (Option.some_injective _ h).symm
  · exact absurd h (by simp)

theorem Order.save_blank_cons {last : Order} {rest : List Order} {o o' : Order}
    {m : Nat} (hnum : o.order_number = "")
    (hlast : parseOrderSuffix last.order_number = some m)
    (h : Order.save (last :: rest) o = some o') :
    o' = { o with order_number := ordString (m + 1) } := by
  have hne : last.order_number ≠ "" := by
    intro he
    rw [he, parseOrderSuffix_empty] at hlast
    exact Option.noConfusion hlast
  rw [Order.save] at h
  simp only [hnum, List.head?_cons, if_true, eq_self_iff_true, hne, ne_eq,
    not_false_iff, hlast, Option.some_bind] at h
  split at h
  · exact (Option.some_injective _ h).symm
  · exact absurd h (by simp)

theorem suffixInv_step {db : List Order} {o saved : Order}
    (hnum : o.order_number = "") (hinv : suffixInv db)
    (h : Order.save db o = some saved) :
    suffixInv (saved :: db) := by
  cases db with
  | nil =>
    obtain rfl := Order.save_blank_nil hnum h
    intro i hi
    simp only [List.length_cons, List.length_nil] at hi ⊢
    have h0 : i = 0 := by omega
    subst h0
    simp only [List.get]
    rw [parseOrderSuffix_ordString]
  | cons last rest =>
    have hlast0 := hinv 0 (by simp)
    have hlast : parseOrderSuffix last.order_number
        = some (1000 + (last :: rest).length) := by simpa using hlast0
    have hsaved := Order.save_blank_cons hnum hlast h
    intro i hi
    cases i with
    | zero =>
      have hget : (saved :: last :: rest).get ⟨0, hi⟩ = saved := rfl
      rw [hget, hsaved]
      show parseOrderSuffix (ordString (1000 + (last :: rest).length + 1))
        = some (1000 + ((last :: rest).length + 1) - 0)
      rw [parseOrderSuffix_ordString]
      exact congrArg some (by omega)
    | succ j =>
      have hjlt : j < (last :: rest).length := Nat.lt_of_succ_lt_succ hi
      have hget : (saved :: last :: rest).get ⟨j + 1, hi⟩
          = (last :: rest).get ⟨j, hjlt⟩ := rfl
      rw [hget, hinv j hjlt]
      have hlen : (saved :: last :: rest).length = (last :: rest).length + 1 := rfl
      rw [hlen]
      congr 1
      omega

theorem createOrders_inv (inputs : List Order)
    (hblank : ∀ o ∈ inputs, o.order_number = "") :
    ∀ (db0 : List Order), suffixInv db0 →
      ∀ db,
        inputs.foldl
          (fun acc o => acc.bind (fun db => (Order.save db o).map (fun s => s :: db)))
          (some db0) = some db →
        db.length = db0.length + inputs.length ∧ suffixInv db := by
  induction inputs with
  | nil =>
    intro db0 hinv db heq
    simp only [List.foldl_nil] at heq
    obtain rfl := Option.some_injective _ heq
    exact ⟨by simp, hinv⟩
  | cons o rest ih =>
    intro db0 hinv db heq
    simp only [List.foldl_cons, Option.some_bind] at heq
    cases hsave : Order.save db0 o with
    | none =>
      rw [hsave] at heq
      simp only [Option.map_none'] at heq
      rw [foldl_saveStep_none] at heq
      exact absurd heq (by simp)
    | some saved =>
      rw [hsave] at heq
      simp only [Option.map_some'] at heq
      have hstep := suffixInv_step (hblank o (by simp)) hinv hsave
      have hrest := ih (fun x hx => hblank x (by simp [hx])) (saved :: db0) hstep db heq
      refine ⟨?_, hrest.2⟩
      rw [hrest.1]
      simp only [List.length_cons]
      omega

/-- C2: when an order is saved with no order number set, the assigned
number is ordString - the literal ORD- followed by the digits zero-padded
to 6 - of the most recent prior order's parsed suffix plus 1, or of 1001
when no prior order exists; a save of an order whose number is set leaves
the order (hence its number) unchanged; and across sequential
non-concurrent creations from an empty store the i-th most recent of the
n persisted orders carries suffix 1000 + n - i, so suffixes strictly
increase in creation order starting from 1001 (models.py:171-183). -/
theorem claim_C2_order_number_generation :
    (∀ (o o' : Order), o.order_number = "" → Order.save [] o = some o' →
        o'.order_number = ordString 1001)
      ∧ (∀ (last : Order) (rest : List Order) (o o' : Order) (m : Nat),
          o.order_number = "" → parseOrderSuffix last.order_number = some m →
          Order.save (last :: rest) o = some o' →
          o'.order_number = ordString (m + 1))
      ∧ (∀ (prior : List Order) (o o' : Order), o.order_number ≠ "" →
          Order.save prior o = some o' → o' = o)
      ∧ (∀ (inputs db : List Order), (∀ o ∈ inputs, o.order_number = "") →
          createOrders inputs = some db →
          db.length = inputs.length
            ∧ (∀ (i : Nat) (hi : i < db.length),
                parseOrderSuffix ((db.get ⟨i, hi⟩).order_number)
                  = some (1000 + db.length - i))
            ∧ (∀ (i j : Nat) (hi : i < db.length) (hj : j < db.length), i < j →
                ∀ mi mj,
                  parseOrderSuffix ((db.get ⟨i, hi⟩).order_number) = some mi →
                  parseOrderSuffix ((db.get ⟨j, hj⟩).order_number) = some mj →
                  mj < mi)) := by
  refine ⟨?_, ?_, ?_, ?_⟩
  · intro o o' hnum h
    rw [Order.save_blank_nil hnum h]
  · intro last rest o o' m hnum hlast h
    rw [Order.save_blank_cons hnum hlast h]
  · intro prior o o' hnum h
    rw [Order.save] at h
    simp only [hnum, if_false, Option.some_bind] at h
    split at h
    · exact (Option.some_injective _ h).symm
    · exact absurd h (by simp)
  · intro inputs db hblank heq
    have h := createOrders_inv inputs hblank []
      (fun i hi => absurd hi (by simp)) db heq
    refine ⟨by simpa using h.1, h.2, ?_⟩
    intro i j hi hj hij mi mj hmi hmj
    have h1 := h.2 i hi
    have h2 := h.2 j hj
    rw [hmi] at h1
    rw [hmj] at h2
    have e1 : mi = 1000 + db.length - i := Option.some_injective _ h1
    have e2 : mj = 1000 + db.length - j := Option.some_injective _ h2
    omega

theorem claim_C2_order_number_generation_witness :
    ("ORD-001001" : String) = ordString 1001
      ∧ createOrders [blankOrder, blankOrder]
          = some [{ blankOrder with order_number := "ORD-001002" },
                  { blankOrder with order_number := "ORD-001001" }]
      ∧ ([{ blankOrder with order_number := "ORD-001002" },
          { blankOrder with order_number := "ORD-001001" }] : List Order).length
          = 2 := by
  refine ⟨?_, by decide, ?_⟩
  · exact (claim_C2_order_number_generation.1 blankOrder
      { blankOrder with order_number := "ORD-001001" } rfl (by decide))
  · exact (claim_C2_order_number_generation.2.2.2 [blankOrder, blankOrder]
      [{ blankOrder with order_number := "ORD-001002" },
       { blankOrder with order_number := "ORD-001001" }]
      (by decide) (by decide)).1
